import Mathlib

set_option maxRecDepth 8192

/-!
Verification of the account/authentication router of the great-builds
repository (src/api/postgres/routers/accounts.py).

The router's own control flow (token selection, error normalisation,
cookie attribute logic, endpoint bodies) is embedded directly from the
source.  The external collaborators — the jose JWT/JWS codec, the passlib
bcrypt context, the user store and the HTTP transport — are modelled from
the spec as executable Lean definitions, each marked in its doc comment.
-/

namespace Accounts

/-- A claims map as carried by the tokens of this router: JSON object whose
values are strings or null.  The only claim the router ever writes is
"sub" (the username). -/
abbrev Claims := List (String × Option String)

/-- A user row as returned by the store collaborator:
(id, username, password hash, email). -/
abbrev Row := Nat × String × String × String

/-- Request headers / cookie jars: ordered association lists of
name-value pairs. -/
abbrev Headers := List (String × String)

/-- First-match lookup in a header (or cookie) association list. -/
def headers_get (hs : Headers) (k : String) : Option String :=
  match hs with
  | [] => none
  | (k2, v) :: rest => if k2 = k then some v else headers_get rest k

/-- Substring test: does the pattern occur contiguously in the haystack?
Models the Python `in` operator on strings. -/
def hasSub (hay pat : String) : Bool :=
  (List.range (hay.data.length + 1)).any fun i =>
    pat.data.isPrefixOf (hay.data.drop i)

/-- The dictionary produced by row_to_user in the source. -/
structure UserD where
  id : Nat
  user : String
  password : String
  email : String
deriving DecidableEq, Repr

/-- An HTTPException as raised by the router: status code, detail body
and the optional WWW-Authenticate challenge header. -/
structure HttpErr where
  status_code : Nat
  detail : String
  www_authenticate : Option String
deriving DecidableEq, Repr

/-- The arguments of a response.set_cookie call. -/
structure SetCookie where
  key : String
  value : String
  httponly : Bool
  samesite : String
  secure : Bool
deriving DecidableEq, Repr

/-- The arguments of a response.delete_cookie call. -/
structure DeleteCookie where
  key : String
  httponly : Bool
  samesite : String
  secure : Bool
deriving DecidableEq, Repr

/-- The login response body: access_token plus token_type. -/
structure TokenBody where
  access_token : String
  token_type : String
deriving DecidableEq, Repr

/-- The GET /token response body. -/
structure TokenOut where
  token : String
deriving DecidableEq, Repr

/-- Modelled from the spec: the shared signing secret, an opaque startup
configuration input read from the environment. -/
def SECRET_KEY : String := "server-held-secret"

def ALGORITHM : String := "HS256"

def ACCESS_TOKEN_EXPIRE_MINUTES : Nat := 30

def COOKIE_NAME : String := "jwtdown_access_token"

/-! ### Token codec, modelled from the spec

The jose library (jwt.encode / jwt.decode / jws.verify) is an external
collaborator.  Following the spec it is modelled as: serialize the claims
injectively, sign the serialized payload with a deterministic keyed
digest standing in for HMAC-SHA256, and concatenate algorithm, payload
and signature into one compact string.  Verification re-parses the
string, checks the algorithm against the allowed list and recomputes the
digest.  The model is executable and round-trips; the bit-level
cryptographic structure of HMAC-SHA256 itself is not modelled. -/

/-- Escape one character of a serialized field (backslash escaping of the
field terminator and of the escape character itself). -/
def esc1 (c : Char) : List Char :=
  if c = ';' ∨ c = '\\' then ['\\', c] else [c]

/-- Escape a whole character list. -/
def escapeChars (s : List Char) : List Char :=
  (s.map esc1).flatten

/-- A serialized field: escaped content followed by the terminator. -/
def fieldEnc (s : List Char) : List Char :=
  escapeChars s ++ [';']

/-- Parse one field: unescape up to the first unescaped terminator,
returning the field content and the unconsumed remainder. -/
def parseField : List Char → Option (List Char × List Char)
  | [] => none
  | c :: rest =>
    if c = ';' then some ([], rest)
    else if c = '\\' then
      match rest with
      | [] => none
      | d :: rest2 =>
        match parseField rest2 with
        | none => none
        | some p => some (d :: p.1, p.2)
    else
      match parseField rest with
      | none => none
      | some p => some (c :: p.1, p.2)

/-- Serialize one claims entry: key field, tag field ("n" for null, "s"
for string) and, for strings, the value field. -/
def serEntry : String × Option String → List Char
  | (k, none) => fieldEnc k.data ++ fieldEnc ['n']
  | (k, some v) => fieldEnc k.data ++ (fieldEnc ['s'] ++ fieldEnc v.data)

/-- Serialize a claims map to characters. -/
def serClaimsChars (c : Claims) : List Char :=
  (c.map serEntry).flatten

/-- Serialize a claims map to a string. -/
def serialize_claims (c : Claims) : String :=
  ⟨serClaimsChars c⟩

/-- Fuel-indexed parser for a serialized claims map (the fuel only bounds
the number of entries, making the recursion structural). -/
def parseEntriesF : Nat → List Char → Option Claims
  | 0, l => if l = [] then some [] else none
  | Nat.succ fuel, l =>
    if l = [] then some []
    else
      match parseField l with
      | none => none
      | some (k, r1) =>
        match parseField r1 with
        | none => none
        | some (tag, r2) =>
          if tag = ['n'] then
            match parseEntriesF fuel r2 with
            | none => none
            | some c => some ((String.mk k, none) :: c)
          else if tag = ['s'] then
            match parseField r2 with
            | none => none
            | some (v, r3) =>
              match parseEntriesF fuel r3 with
              | none => none
              | some c => some ((String.mk k, some (String.mk v)) :: c)
          else none

/-- Parse a serialized claims map (fuel: the input length suffices). -/
def parse_claims (s : String) : Option Claims :=
  parseEntriesF s.data.length s.data

/-- Deterministic digest of a string (stand-in keyed hash). -/
def strFold (s : String) : Nat :=
  s.data.foldl (fun a c => (a * 131 + c.toNat + 1) % 1000000007) 7

/-- Modelled from the spec: the HMAC-SHA256 signature over the signing
input, represented as a deterministic keyed digest of secret, algorithm
and payload. -/
def macNat (secret alg payload : String) : Nat :=
  strFold (secret ++ "|" ++ alg ++ "|" ++ payload)

/-- The signature part of a token, as characters. -/
def sigChars (secret alg payload : String) : List Char :=
  (Nat.repr (macNat secret alg payload)).data

/-- Modelled from the spec: jose jwt.encode — serialize the claims and
sign them, producing one compact string of algorithm, payload and
signature fields. -/
def jwt_encode (payload : Claims) (secret alg : String) : String :=
  ⟨fieldEnc alg.data ++
    (fieldEnc (serClaimsChars payload) ++
      fieldEnc (sigChars secret alg (serialize_claims payload)))⟩

/-- Split a compact token into its algorithm, payload and signature
fields, rejecting trailing garbage. -/
def parseToken (l : List Char) : Option (List Char × List Char × List Char) :=
  match parseField l with
  | none => none
  | some (a, r1) =>
    match parseField r1 with
    | none => none
    | some (p, r2) =>
      match parseField r2 with
      | none => none
      | some (s, r3) => if r3 = [] then some (a, p, s) else none

/-- Modelled from the spec: jose jwt.decode — structural parse, algorithm
check against the allowed list, signature check, then claims parse; any
failure collapses to none (the uniform JWTError). -/
def jwt_decode (token : String) (secret : String) (algorithms : List String) :
    Option Claims :=
  match parseToken token.data with
  | none => none
  | some (a, p, s) =>
    if String.mk a ∈ algorithms then
      if s = sigChars secret (String.mk a) (String.mk p) then
        parse_claims (String.mk p)
      else none
    else none

/-- Modelled from the spec: jose jws.verify — checks only the structural
form, the algorithm and the signature, and returns the raw signed payload
without interpreting it as claims. -/
def jws_verify (token : String) (secret alg : String) : Option String :=
  match parseToken token.data with
  | none => none
  | some (a, p, s) =>
    if String.mk a = alg then
      if s = sigChars secret (String.mk a) (String.mk p) then
        some (String.mk p)
      else none
    else none

/-- payload.get(key) of a Python dict whose values may be null: yields
none both when the key is absent and when its value is null. -/
def claims_get (c : Claims) (k : String) : Option String :=
  match c with
  | [] => none
  | (k2, v) :: rest => if k2 = k then v else claims_get rest k

/-- Modelled from the spec: the digest underlying the passlib bcrypt
context, represented as a deterministic placeholder one-way transform. -/
def hash_model (plain : String) : String :=
  "bcrypt-" ++ Nat.repr (strFold plain)

/-- pwd_context.verify of the source: recompute and compare; total, never
raises on mismatch (the bcrypt collaborator is modelled by hash_model). -/
def verify_password (plain_password hashed_password : String) : Bool :=
  hash_model plain_password == hashed_password

/-- authenticate_user of the source: look the user up by name, return
False (none) when absent, otherwise return the row exactly when the
password verifies against the stored hash (row component 2). -/
def authenticate_user (repo : String → Option Row)
    (username password : String) : Option Row :=
  match repo username with
  | none => none
  | some user => if verify_password password user.2.2.1 then some user else none

/-- create_access_token of the source: copy the claims dict and encode it
under the module secret and algorithm, adding nothing. -/
def create_access_token (data : Claims) : String :=
  jwt_encode data SECRET_KEY ALGORITHM

/-- row_to_user of the source. -/
def row_to_user (row : Row) : UserD :=
  { id := row.1, user := row.2.1, password := row.2.2.1, email := row.2.2.2 }

/-- Python truthiness of an Optional[str]: None and the empty string are
falsy. -/
def py_falsy (t : Option String) : Bool :=
  match t with
  | none => true
  | some s => decide (s = "")

/-- The credentials_exception constant of get_current_user. -/
def credentials_exception : HttpErr :=
  { status_code := 401
    detail := "Invalid authentication credentials"
    www_authenticate := some "Bearer" }

/-- get_current_user of the source: select the bearer token, falling back
to the cookie token when the bearer token is falsy and the cookie token
truthy; decode it, read the sub claim, look the subject up in the store;
every failure raises the one credentials_exception. -/
def get_current_user (bearer_token cookie_token : Option String)
    (repo : String → Option Row) : Except HttpErr UserD :=
  match (if py_falsy bearer_token && !(py_falsy cookie_token)
         then cookie_token else bearer_token) with
  | none => Except.error credentials_exception
  | some t =>
    match jwt_decode t SECRET_KEY [ALGORITHM] with
    | none => Except.error credentials_exception
    | some payload =>
      match claims_get payload "sub" with
      | none => Except.error credentials_exception
      | some username =>
        match repo username with
        | none => Except.error credentials_exception
        | some user => Except.ok (row_to_user user)

/-- login_for_access_token of the source: authenticate, raise 401 with
the bearer challenge on failure; on success issue a token with
subject = username, return the bearer body and set the cookie whose
samesite/secure attributes depend on whether the origin header contains
"localhost". -/
def login_for_access_token (headers : Headers)
    (form_username form_password : String)
    (repo : String → Option Row) : Except HttpErr (TokenBody × SetCookie) :=
  match authenticate_user repo form_username form_password with
  | none =>
    Except.error
      { status_code := 401
        detail := "Invalid authentication credentials"
        www_authenticate := some "Bearer" }
  | some user =>
    let access_token := create_access_token [("sub", some user.2.1)]
    let local_origin : Bool :=
      match headers_get headers "origin" with
      | some o => hasSub o "localhost"
      | none => false
    Except.ok
      ({ access_token := access_token, token_type := "bearer" },
        { key := COOKIE_NAME
          value := access_token
          httponly := true
          samesite := if local_origin then "lax" else "none"
          secure := if local_origin then false else true })

/-- get_token of the source: return the cookie-borne token as a body when
the named cookie is present, and nothing (no body, no error) otherwise. -/
def get_token (cookies : Headers) : Option TokenOut :=
  match headers_get cookies COOKIE_NAME with
  | some v => some { token := v }
  | none => none

/-- The body of a validate_token response: the signed payload on success
or an error detail string on failure. -/
inductive VResp where
  | payload (s : String)
  | err (detail : String)
deriving DecidableEq, Repr

/-- validate_token of the source: jws-verify the submitted token value;
on success return the signed payload (status stays 200), on JWSError set
status 422 and return the generic detail body. -/
def validate_token (access_token : String) : Nat × VResp :=
  match jws_verify access_token SECRET_KEY ALGORITHM with
  | some payload => (200, VResp.payload payload)
  | none => (422, VResp.err "Not a good token")

/-- logout of the source: delete the named cookie with the same
origin-dependent samesite/secure computation as login; no session state
is consulted. -/
def logout (headers : Headers) : DeleteCookie :=
  let local_origin : Bool :=
    match headers_get headers "origin" with
    | some o => hasSub o "localhost"
    | none => false
  { key := COOKIE_NAME
    httponly := true
    samesite := if local_origin then "lax" else "none"
    secure := if local_origin then false else true }

/-- Effect of a delete_cookie instruction on a client cookie jar. -/
def apply_delete (jar : Headers) (d : DeleteCookie) : Headers :=
  jar.filter fun kv => !(kv.1 == d.key)

/-! ### Concrete fixtures used by witnesses and counterexamples -/

/-- A store with the single user alice, whose stored hash verifies
against the password "pw1234". -/
def repo0 : String → Option Row := fun u =>
  if u = "alice" then some (1, "alice", hash_model "pw1234", "alice@example.com") else none

/-- A valid token for alice under the module secret and algorithm. -/
def tok0 : String := create_access_token [("sub", some "alice")]

/-- A request header list whose origin carries the local-development
marker. -/
def hs_local : Headers := [("origin", "http://localhost:3000")]

/-- The cookie that login sets for alice under hs_local. -/
def ck_local : SetCookie :=
  { key := COOKIE_NAME, value := tok0, httponly := true
    samesite := "lax", secure := false }

/-! ### Round-trip and helper lemmas -/

theorem string_mk_data (s : String) : String.mk s.data = s := rfl

theorem string_data_mk (l : List Char) : (String.mk l).data = l := rfl

theorem fieldEnc_append_ne_nil (s rest : List Char) : fieldEnc s ++ rest ≠ [] := by
  simp [fieldEnc]

theorem parseField_fieldEnc (s rest : List Char) :
    parseField (fieldEnc s ++ rest) = some (s, rest) := by
  induction s with
  | nil =>
    rw [show fieldEnc [] ++ rest = ';' :: rest from by simp [fieldEnc, escapeChars]]
    rw [parseField.eq_def]
    simp
  | cons c s ih =>
    by_cases h : c = ';' ∨ c = '\\'
    · have he : fieldEnc (c :: s) ++ rest = '\\' :: c :: (fieldEnc s ++ rest) := by
        simp [fieldEnc, escapeChars, esc1, h, List.append_assoc]
      rw [he, parseField.eq_def]
      simp [ih]
    · push_neg at h
      have he : fieldEnc (c :: s) ++ rest = c :: (fieldEnc s ++ rest) := by
        simp [fieldEnc, escapeChars, esc1, h.1, h.2, List.append_assoc]
      rw [he, parseField.eq_def]
      simp [h.1, h.2, ih]

theorem parseField_fieldEnc_nil (s : List Char) :
    parseField (fieldEnc s) = some (s, []) := by
  simpa using parseField_fieldEnc s []

theorem parseEntriesF_ser : ∀ (c : Claims) (fuel : Nat), c.length ≤ fuel →
    parseEntriesF fuel (serClaimsChars c) = some c := by
  intro c
  induction c with
  | nil =>
    intro fuel hf
    cases fuel <;> simp [serClaimsChars, parseEntriesF]
  | cons e c ih =>
    intro fuel hf
    obtain ⟨f, rfl⟩ : ∃ f, fuel = f + 1 := by
      cases fuel with
      | zero => simp at hf
      | succ f => exact ⟨f, rfl⟩
    obtain ⟨k, v⟩ := e
    have hc : c.length ≤ f := by simpa using hf
    cases v with
    | none =>
      have hser : serClaimsChars ((k, none) :: c) =
          fieldEnc k.data ++ (fieldEnc ['n'] ++ serClaimsChars c) := by
        simp [serClaimsChars, serEntry, List.append_assoc]
      rw [hser, parseEntriesF, if_neg (fieldEnc_append_ne_nil _ _)]
      simp [parseField_fieldEnc, string_mk_data, ih f hc]
    | some v =>
      have hser : serClaimsChars ((k, some v) :: c) =
          fieldEnc k.data ++ (fieldEnc ['s'] ++ (fieldEnc v.data ++ serClaimsChars c)) := by
        simp [serClaimsChars, serEntry, List.append_assoc]
      rw [hser, parseEntriesF, if_neg (fieldEnc_append_ne_nil _ _)]
      simp [parseField_fieldEnc, string_mk_data, ih f hc]

theorem length_le_serClaimsChars (c : Claims) : c.length ≤ (serClaimsChars c).length := by
  induction c with
  | nil => simp [serClaimsChars]
  | cons e c ih =>
    obtain ⟨k, v⟩ := e
    cases v <;> simp [serClaimsChars, serEntry, fieldEnc] at * <;> omega

theorem parse_claims_serialize (c : Claims) :
    parse_claims (serialize_claims c) = some c := by
  have h := parseEntriesF_ser c (serClaimsChars c).length (length_le_serClaimsChars c)
  simpa [parse_claims, serialize_claims] using h

theorem parse_claims_ser_chars (c : Claims) :
    parse_claims (String.mk (serClaimsChars c)) = some c :=
  parse_claims_serialize c

theorem jwt_roundtrip (payload : Claims) (secret alg : String) :
    jwt_decode (jwt_encode payload secret alg) secret [alg] = some payload := by
  unfold jwt_decode jwt_encode parseToken
  rw [string_data_mk]
  simp [parseField_fieldEnc, parseField_fieldEnc_nil, string_mk_data, serialize_claims,
    parse_claims_ser_chars]

theorem jws_verify_encode (payload : Claims) (secret alg : String) :
    jws_verify (jwt_encode payload secret alg) secret alg = some (serialize_claims payload) := by
  unfold jws_verify jwt_encode parseToken
  rw [string_data_mk]
  simp [parseField_fieldEnc, parseField_fieldEnc_nil, string_mk_data, serialize_claims]

/-! ### Claim theorems -/

theorem apply_delete_idem (jar : Headers) (d : DeleteCookie) :
    apply_delete (apply_delete jar d) d = apply_delete jar d := by
  unfold apply_delete
  rw [List.filter_filter]
  simp

/-- C1 counterexample: a request carrying both a header token (the empty
string, present but invalid) and a valid cookie token resolves through
the cookie token and succeeds, instead of rejecting the invalid header
token; without the cookie the same header token is rejected. -/
theorem c1_counterexample :
    get_current_user (some "") (some tok0) repo0 =
      Except.ok (row_to_user (1, "alice", hash_model "pw1234", "alice@example.com")) ∧
    get_current_user (some "") none repo0 = Except.error credentials_exception :=
  ⟨rfl, rfl⟩

/-- C1 (amended): the cookie token is consulted only when the header token
is absent or empty (Python-falsy); whenever the header token is a
non-empty string, resolution is independent of the cookie token, and a
non-empty header token that fails to decode is rejected even when the
cookie token is valid. -/
theorem get_current_user_header_precedence (s : String)
    (cookie_token : Option String) (repo : String → Option Row) (h : s ≠ "") :
    get_current_user (some s) cookie_token repo =
      get_current_user (some s) none repo ∧
    (jwt_decode s SECRET_KEY [ALGORITHM] = none →
      get_current_user (some s) cookie_token repo = Except.error credentials_exception) := by
  have hf : py_falsy (some s) = false := by simp [py_falsy, h]
  constructor
  · simp [get_current_user, hf]
  · intro hd
    simp [get_current_user, hf, hd]

theorem c1_witness :
    get_current_user (some "garbage") (some tok0) repo0 = Except.error credentials_exception := by
  have h := get_current_user_header_precedence "garbage" (some tok0) repo0 (by decide)
  exact h.2 rfl

/-- C2: every failing resolution in get_current_user — no candidate token,
undecodable token, missing or null subject claim, or unknown subject —
produces the single credentials_exception: HTTP 401, the same detail and
the same Bearer challenge header. -/
theorem get_current_user_uniform_failure (bearer_token cookie_token : Option String)
    (repo : String → Option Row) (e : HttpErr)
    (h : get_current_user bearer_token cookie_token repo = Except.error e) :
    e = credentials_exception ∧ e.status_code = 401 ∧
    e.detail = "Invalid authentication credentials" ∧
    e.www_authenticate = some "Bearer" := by
  unfold get_current_user at h
  repeat' split at h
  all_goals first
    | (injection h with h2; subst h2; exact ⟨rfl, rfl, rfl, rfl⟩)
    | exact absurd h (by simp)

theorem c2_witness :
    credentials_exception = credentials_exception ∧
    credentials_exception.status_code = 401 ∧
    credentials_exception.detail = "Invalid authentication credentials" ∧
    credentials_exception.www_authenticate = some "Bearer" :=
  get_current_user_uniform_failure none none (fun _ => none) credentials_exception rfl

/-- C4: authenticate_user returns none (Python False) when the username is
absent from the store; when the user row exists it returns exactly that
row when the password verifies against the stored hash and none
otherwise, and being a total function it never raises. -/
theorem authenticate_user_spec (repo : String → Option Row) (username password : String) :
    (repo username = none → authenticate_user repo username password = none) ∧
    (∀ row, repo username = some row → verify_password password row.2.2.1 = true →
      authenticate_user repo username password = some row) ∧
    (∀ row, repo username = some row → verify_password password row.2.2.1 = false →
      authenticate_user repo username password = none) := by
  refine ⟨fun h => ?_, fun row h hv => ?_, fun row h hv => ?_⟩
  · simp [authenticate_user, h]
  · simp [authenticate_user, h, hv]
  · simp [authenticate_user, h, hv]

theorem c4_witness :
    authenticate_user repo0 "alice" "pw1234" =
      some (1, "alice", hash_model "pw1234", "alice@example.com") :=
  (authenticate_user_spec repo0 "alice" "pw1234").2.1
    (1, "alice", hash_model "pw1234", "alice@example.com") rfl rfl

/-- C5: on a successful login, the issued cookie carries samesite lax and
secure false exactly when the origin header is present and contains
"localhost"; when the origin is absent or lacks the marker the cookie
carries samesite none and secure true. -/
theorem login_cookie_policy (headers : Headers) (u p : String)
    (repo : String → Option Row) (body : TokenBody) (ck : SetCookie)
    (h : login_for_access_token headers u p repo = Except.ok (body, ck)) :
    ((∃ o, headers_get headers "origin" = some o ∧ hasSub o "localhost" = true) →
      ck.samesite = "lax" ∧ ck.secure = false) ∧
    ((∀ o, headers_get headers "origin" = some o → hasSub o "localhost" = false) →
      ck.samesite = "none" ∧ ck.secure = true) := by
  unfold login_for_access_token at h
  cases hauth : authenticate_user repo u p with
  | none => rw [hauth] at h; exact absurd h (by simp)
  | some user =>
    rw [hauth] at h
    simp only [Except.ok.injEq, Prod.mk.injEq] at h
    obtain ⟨hb, hck⟩ := h
    subst hck
    constructor
    · rintro ⟨o, ho, hl⟩
      simp [ho, hl]
    · intro hall
      cases horig : headers_get headers "origin" with
      | none => simp [horig]
      | some o => simp [horig, hall o horig]

theorem c5_witness : ck_local.samesite = "lax" ∧ ck_local.secure = false :=
  (login_cookie_policy hs_local "alice" "pw1234" repo0
      { access_token := tok0, token_type := "bearer" } ck_local rfl).1
    ⟨"http://localhost:3000", rfl, rfl⟩

/-- C6: validate_token answers only the signature question: any
jws-verification failure yields status 422 with the fixed generic detail
and never a payload; every token issued under the module secret is
answered with status 200 and its raw signed payload, with no subject or
store check (the handler takes no store argument); a token issued under a
different secret is rejected with the same 422 response. -/
theorem validate_token_spec :
    (∀ tok, jws_verify tok SECRET_KEY ALGORITHM = none →
      validate_token tok = (422, VResp.err "Not a good token")) ∧
    (∀ payload, validate_token (jwt_encode payload SECRET_KEY ALGORITHM) =
      (200, VResp.payload (serialize_claims payload))) ∧
    validate_token (jwt_encode [("sub", some "alice")] "another-secret" ALGORITHM) =
      (422, VResp.err "Not a good token") := by
  refine ⟨fun tok h => ?_, fun payload => ?_, rfl⟩
  · simp [validate_token, h]
  · simp [validate_token, jws_verify_encode]

theorem c6_witness : validate_token "bad" = (422, VResp.err "Not a good token") :=
  validate_token_spec.1 "bad" rfl

/-- C7: create_access_token is a pure pass-through: decoding an issued
token under the same secret and algorithm returns exactly the claims map
that was given — in particular no expiry or issued-at claim is added —
while the configured token lifetime constant remains 30 and is never
attached. -/
theorem create_access_token_passthrough (data : Claims) :
    jwt_decode (create_access_token data) SECRET_KEY [ALGORITHM] = some data ∧
    ACCESS_TOKEN_EXPIRE_MINUTES = 30 :=
  ⟨jwt_roundtrip data SECRET_KEY ALGORITHM, rfl⟩

/-- C8: GET /token returns the cookie-borne token as a body when the
named cookie is present and nothing — no body and no error — when it is
absent. -/
theorem get_token_spec (cookies : Headers) :
    (∀ v, headers_get cookies COOKIE_NAME = some v →
      get_token cookies = some { token := v }) ∧
    (headers_get cookies COOKIE_NAME = none → get_token cookies = none) := by
  refine ⟨fun v h => ?_, fun h => ?_⟩ <;> simp [get_token, h]

theorem c8_witness : get_token [(COOKIE_NAME, "tokval")] = some { token := "tokval" } :=
  (get_token_spec [(COOKIE_NAME, "tokval")]).1 "tokval" rfl

/-- C9: logout deletes the named cookie with exactly the attribute values
(samesite, secure, key, httponly) that login would set for the same
request headers, it is a total function of the request (no session state
is consulted), and deleting the cookie twice from a cookie jar equals
deleting it once. -/
theorem logout_matches_login_policy (headers : Headers) :
    (∀ u p repo body ck, login_for_access_token headers u p repo = Except.ok (body, ck) →
      (logout headers).samesite = ck.samesite ∧ (logout headers).secure = ck.secure ∧
      (logout headers).key = ck.key ∧ (logout headers).httponly = ck.httponly) ∧
    (logout headers).key = COOKIE_NAME ∧
    (∀ jar, apply_delete (apply_delete jar (logout headers)) (logout headers) =
      apply_delete jar (logout headers)) := by
  refine ⟨?_, rfl, fun jar => apply_delete_idem jar (logout headers)⟩
  intro u p repo body ck h
  unfold login_for_access_token at h
  cases hauth : authenticate_user repo u p with
  | none => rw [hauth] at h; exact absurd h (by simp)
  | some user =>
    rw [hauth] at h
    simp only [Except.ok.injEq, Prod.mk.injEq] at h
    obtain ⟨hb, hck⟩ := h
    subst hck
    exact ⟨rfl, rfl, rfl, rfl⟩

theorem c9_witness :
    (logout hs_local).samesite = ck_local.samesite ∧
    (logout hs_local).secure = ck_local.secure ∧
    (logout hs_local).key = ck_local.key ∧
    (logout hs_local).httponly = ck_local.httponly :=
  (logout_matches_login_policy hs_local).1 "alice" "pw1234" repo0
    { access_token := tok0, token_type := "bearer" } ck_local rfl

/-- C10: both cookie operations set httponly unconditionally: the cookie
login sets and the deletion logout issues carry httponly true in both
the dev and the prod attribute branch. -/
theorem cookie_httponly_invariant (headers : Headers) :
    (logout headers).httponly = true ∧
    (∀ u p repo body ck, login_for_access_token headers u p repo = Except.ok (body, ck) →
      ck.httponly = true) := by
  refine ⟨rfl, ?_⟩
  intro u p repo body ck h
  unfold login_for_access_token at h
  cases hauth : authenticate_user repo u p with
  | none => rw [hauth] at h; exact absurd h (by simp)
  | some user =>
    rw [hauth] at h
    simp only [Except.ok.injEq, Prod.mk.injEq] at h
    obtain ⟨hb, hck⟩ := h
    subst hck
    rfl

theorem c10_witness : ck_local.httponly = true :=
  (cookie_httponly_invariant hs_local).2 "alice" "pw1234" repo0
    { access_token := tok0, token_type := "bearer" } ck_local rfl

end Accounts
